import Mathlib

/-!
# Verification of `openapi-backend` (`src/backend.ts`)

A shallow embedding of the `OpenAPIBackend` class from `src/backend.ts`:
the dispatch pipeline `handleRequest`, handler registration
`registerHandler`, and the mock selector `mockResponseForOperation`.

The collaborators `OpenAPIRouter` (`src/router.ts`) and `OpenAPIValidator`
(`src/validation.ts`) are not part of the sources under inspection; the
pipeline is therefore parameterised over their behaviour (they appear as
function-valued fields of `Backend`), and every theorem about the pipeline
quantifies over them.  JavaScript truthiness, where it decides control flow in
the source, is modelled explicitly on a `Json` value type.
-/

namespace OpenAPIBackend

/-- A JavaScript value, as far as the backend inspects one.  `undef` is the
JavaScript `undefined` produced by a missing property or key. -/
inductive Json where
  | null
  | undef
  | bool (b : Bool)
  | num (n : Int)
  | str (s : String)
  | arr (elems : List Json)
  | obj (fields : List (String × Json))

/-- JavaScript truthiness of a `Json` value: `undefined`, `null`, `false`,
`0` and the empty string are falsy; every array and object is truthy. -/
def Json.truthy : Json → Bool
  | .null => false
  | .undef => false
  | .bool b => b
  | .num n => n != 0
  | .str s => s != ""
  | .arr _ => true
  | .obj _ => true

/-- A media-type entry of a response's `content` map
(`OpenAPIV3.MediaTypeObject` as read by `mockResponseForOperation`):
an optional inline `example` (`undef` when absent), an optional map of
named examples (each entry reduced to its `value` field, `undef` when the
example object has no `value`), and an optional `schema`. -/
structure MediaObj where
  inlineExample : Json := Json.undef
  examples : Option (List (String × Json)) := none
  schema : Option Json := none

/-- A response object: `mockResponseForOperation` only reads its `content`
map (media type ↦ media object).  `none` models an absent `content`
property. -/
structure ResponseObj where
  content : Option (List (String × MediaObj)) := none

/-- The flattened `Operation` produced by the router: the fields
`backend.ts` reads.  `operationId` is optional (operations may lack one),
`responses` is the status-code ↦ response map used by the mock selector. -/
structure Operation where
  operationId : Option String := none
  path : String := ""
  method : String := "get"
  responses : Option (List (String × ResponseObj)) := none

/-- The `ValidationResult` shape from `src/validation.ts` as read by
`handleRequest`: a `valid` flag and an `errors` field that is `undefined`
(`none`) exactly when there were no findings. -/
structure ValidationResult where
  valid : Bool := true
  errors : Option (List String) := none

/-- The per-request `Context` object threaded through one `handleRequest`
call.  The `api` back-reference to the instance is omitted (it is the
instance itself and carries no per-request information).  The parsed
request is represented as a `Json` projection. -/
structure Ctx where
  request : Option Json := none
  operation : Option Operation := none
  validation : Option ValidationResult := none
  response : Option Json := none

/-- An incoming request as consumed by the pipeline (method and path are
all `backend.ts` itself forwards to collaborators). -/
structure Request where
  method : String := "get"
  path : String := "/"
deriving DecidableEq

/-- An operation handler.  When the backend's `withContext` flag is set the
context is passed as first argument (`some ctx`); otherwise only the
caller-supplied extra arguments are passed (`none`). -/
def Handler : Type := Option Ctx → List Json → Json

/-- The `validate` constructor option: a static boolean or a per-request
predicate over the built context and the extra handler arguments. -/
inductive Gate where
  | flag (b : Bool)
  | pred (f : Ctx → List Json → Bool)

/-- Evaluation of the validate gate, mirroring
`typeof this.validate === 'function' ? this.validate(context, ...handlerArgs) : Boolean(this.validate)`. -/
def gateEval (g : Gate) (ctx : Ctx) (args : List Json) : Bool :=
  match g with
  | .flag b => b
  | .pred f => f ctx args

/-- The router collaborator (`src/router.ts`), abstracted to the two
methods `handleRequest` calls: `parseRequest (req) (knownPath?)` and
`matchOperation (req)`. -/
structure Router where
  parseRequest : Request → Option String → Json
  matchOperation : Request → Option Operation

/-- The state of an initialised `OpenAPIBackend` instance as read during
request handling: the router and validator collaborators, the handler
registry, and the `withContext` / `validate` options. -/
structure Backend where
  router : Router
  validator : Request → Operation → ValidationResult
  handlers : List (String × Handler)
  withContext : Bool := true
  validate : Gate := Gate.flag true

/-- Which call site of `handleRequest` invoked a handler. -/
inductive Role where
  | notFound
  | validationFail
  | business
  | notImplemented
  | postResponse
deriving DecidableEq

/-- An observable event of one `handleRequest` run: an invocation of the
request validator, or an invocation of a handler (recording the call site,
the registry key the handler was found under, and the context argument it
received — `none` when `withContext` is off). -/
inductive Event where
  | validateCall (result : ValidationResult)
  | handlerCall (role : Role) (key : String) (ctx : Option Ctx)

/-- The keys of the handler calls a trace contains for a given role, in
order of invocation. -/
def roleCalls (evs : List Event) (r : Role) : List String :=
  evs.filterMap fun e =>
    match e with
    | .validateCall _ => none
    | .handlerCall role key _ => if role = r then some key else none

/-- The (role, key) call sites of a trace, in order of invocation,
forgetting the contexts the handlers received. -/
def callSites (evs : List Event) : List (Role × String) :=
  evs.filterMap fun e =>
    match e with
    | .validateCall _ => none
    | .handlerCall role key _ => some (role, key)

/-- Invokes a handler the way every call site of `handleRequest` does:
with the context prepended when `withContext` is set, without it
otherwise.  Returns the handler's value and the corresponding event. -/
def invokeHandler (b : Backend) (role : Role) (key : String) (f : Handler)
    (ctx : Ctx) (args : List Json) : Json × Event :=
  let c : Option Ctx := if b.withContext then some ctx else none
  (f c args, Event.handlerCall role key c)

/-- `this.handlers['404'] || this.handlers['notFound']`, keeping the key
the handler was found under. -/
def notFoundLookup (hs : List (String × Handler)) : Option (String × Handler) :=
  match hs.lookup "404" with
  | some f => some ("404", f)
  | none =>
    match hs.lookup "notFound" with
    | some f => some ("notFound", f)
    | none => none

/-- `this.handlers['501'] || this.handlers['notImplemented']`, keeping the
key the handler was found under. -/
def notImplementedLookup (hs : List (String × Handler)) : Option (String × Handler) :=
  match hs.lookup "501" with
  | some f => some ("501", f)
  | none =>
    match hs.lookup "notImplemented" with
    | some f => some ("notImplemented", f)
    | none => none

/-- The 404 branch of `handleRequest` (lines 197–204 of `backend.ts`):
route the request to the `'404'` or `'notFound'` handler, or throw
`404-notFound: no route matches request` when neither is registered. -/
def notFoundBranch (b : Backend) (ctx : Ctx) (args : List Json) :
    Except String (Json × Ctx) × List Event :=
  match notFoundLookup b.handlers with
  | none => (Except.error "404-notFound: no route matches request", [])
  | some (k, h) =>
    let (v, e) := invokeHandler b Role.notFound k h ctx args
    (Except.ok (v, ctx), [e])

/-- The context as built just before the validate gate is evaluated
(lines 205–212): the request re-parsed against the matched path, the
matched operation, no validation result yet. -/
def gateCtx (b : Backend) (req : Request) (op : Operation) : Ctx :=
  { request := some (b.router.parseRequest req (some op.path))
    operation := some op
    validation := none
    response := none }

/-- The handler-resolution tail of `handleRequest` (lines 229–243): invoke
the handler registered under the matched `operationId`, falling back to
`'501'` / `'notImplemented'`, or throw when neither exists.  `evs` is the
trace accumulated so far. -/
def dispatchRoute (b : Backend) (oid : String) (ctx : Ctx) (args : List Json)
    (evs : List Event) : Except String (Json × Ctx) × List Event :=
  match b.handlers.lookup oid with
  | some rh =>
    let (v, e) := invokeHandler b Role.business oid rh ctx args
    (Except.ok (v, ctx), evs ++ [e])
  | none =>
    match notImplementedLookup b.handlers with
    | none =>
      (Except.error ("501-notImplemented: " ++ oid ++ " no handler registered"), evs)
    | some (k, h) =>
      let (v, e) := invokeHandler b Role.notImplemented k h ctx args
      (Except.ok (v, ctx), evs ++ [e])

/-- The matched-operation path of `handleRequest` (lines 205–243):
evaluate the validate gate, run the validator when it is on, divert to the
`validationFail` handler when errors were found and one is registered,
otherwise resolve the route handler. -/
def mainBranch (b : Backend) (req : Request) (op : Operation) (oid : String)
    (args : List Json) : Except String (Json × Ctx) × List Event :=
  let ctx3 := gateCtx b req op
  if gateEval b.validate ctx3 args then
    let vres := b.validator req op
    let ctx4 := { ctx3 with validation := some vres }
    if vres.errors.isSome then
      match b.handlers.lookup "validationFail" with
      | some h =>
        let (v, e) := invokeHandler b Role.validationFail "validationFail" h ctx4 args
        (Except.ok (v, ctx4), [Event.validateCall vres, e])
      | none => dispatchRoute b oid ctx4 args [Event.validateCall vres]
    else dispatchRoute b oid ctx4 args [Event.validateCall vres]
  else dispatchRoute b oid (gateCtx b req op) args []

/-- The inner async closure of `handleRequest` (lines 191–244): parse,
match, and dispatch.  Returns the inner response together with the final
context (the source mutates one shared context object), or the thrown
error, plus the trace of validator/handler invocations. -/
def handleInner (b : Backend) (req : Request) (args : List Json) :
    Except String (Json × Ctx) × List Event :=
  let ctx1 : Ctx := { request := some (b.router.parseRequest req none) }
  match b.router.matchOperation req with
  | none => notFoundBranch b ctx1 args
  | some op =>
    let ctx2 := { ctx1 with operation := some op }
    match op.operationId with
    | none => notFoundBranch b ctx2 args
    | some oid =>
      if oid = "" then notFoundBranch b ctx2 args
      else mainBranch b req op oid args

/-- `handleRequest` (lines 181–256) for an initialised backend: run the
inner pipeline, then — when the inner pipeline did not throw — pass the
response through the registered `postResponseHandler` (after storing it in
`context.response`), returning that handler's value instead. -/
def handleRequest (b : Backend) (req : Request) (args : List Json) :
    Except String Json × List Event :=
  match handleInner b req args with
  | (Except.error e, evs) => (Except.error e, evs)
  | (Except.ok (v, ctx), evs) =>
    match b.handlers.lookup "postResponseHandler" with
    | none => (Except.ok v, evs)
    | some p =>
      let ctx2 := { ctx with response := some v }
      let (v2, e) := invokeHandler b Role.postResponse "postResponseHandler" p ctx2 args
      (Except.ok v2, evs ++ [e])

/-! ## Handler registration (`registerHandler`, lines 265–287) -/

/-- The instance field `allowedHandlers` (line 65 of `backend.ts`). -/
def allowedHandlers : List String :=
  ["notFound", "notImplemented", "validationFail", "postResponseHandler"]

/-- The runtime argument passed as a handler: a function, or any other
value (which fails the `typeof handler !== 'function'` check). -/
inductive HandlerArg where
  | fn (f : Handler)
  | notFn (v : Json)

/-- `this.handlers[operationId] = handler`: update the registry, replacing
an existing entry in place or appending a new one (JavaScript objects keep
the original insertion position on re-assignment). -/
def setHandler (hs : List (String × Handler)) (k : String) (f : Handler) :
    List (String × Handler) :=
  match hs with
  | [] => [(k, f)]
  | (k1, f1) :: rest =>
    if k1 == k then (k, f) :: rest else (k1, f1) :: setHandler rest k f

/-- `registerHandler` (lines 265–287).  Inputs: the instance flags
`initalized` (the source's spelling) and `strict`, the router's
`getOperation` lookup, the current registry, the key and the handler
argument.  Output: `Except.error` models a thrown `Error`; on success the
new registry is returned together with the `console.warn` message emitted,
if any. -/
def registerHandler (initalized strict : Bool)
    (getOperation : String → Option Operation)
    (hs : List (String × Handler)) (operationId : String) (h : HandlerArg) :
    Except String (List (String × Handler) × Option String) :=
  match h with
  | .notFn _ => Except.error "Handler should be a function"
  | .fn f =>
    let unknown : Bool :=
      initalized && (getOperation operationId).isNone &&
        !(allowedHandlers.contains operationId)
    if unknown then
      if strict then
        Except.error ("Unknown operationId " ++ operationId ++ ". Refusing to register handler")
      else
        Except.ok (setHandler hs operationId f, some ("Unknown operationId " ++ operationId))
    else
      Except.ok (setHandler hs operationId f, none)

/-! ## Mock selection (`mockResponseForOperation`, lines 342–414) -/

/-- The options object of `mockResponseForOperation`. -/
structure MockOpts where
  code : Option Nat := none
  mediaType : Option String := none
  exampleName : Option String := none

/-- The numeric value of a decimal digit character, if it is one. -/
def digitVal (c : Char) : Option Nat :=
  if c.toNat ≥ 48 && c.toNat ≤ 57 then some (c.toNat - 48) else none

/-- Reads a response-map key as a decimal number (`none` for keys such as
`default`). -/
def statusKeyNat (s : String) : Option Nat :=
  s.data.foldl (fun acc c =>
    match acc, digitVal c with
    | some n, some d => some (n * 10 + d)
    | _, _ => none) (if s.data.isEmpty then none else some 0)

/-- Modelled from the spec: `OpenAPIUtils.findDefaultStatusCodeMatch`
lives in `src/utils.ts`, which is not among the provided sources.  Per
spec §4.6 step 1 it prefers a 2xx response (the lowest numeric 2xx when
several are declared), else the declared `default` entry, else the first
declared status; an empty responses map yields status 200 and no
response. -/
def findDefaultStatusCodeMatch (responses : List (String × ResponseObj)) :
    Nat × Option ResponseObj :=
  let twoxx := responses.filterMap fun p =>
    match statusKeyNat p.1 with
    | some n => if 200 ≤ n && n < 300 then some (n, p.2) else none
    | none => none
  match twoxx with
  | first :: rest =>
    let best := rest.foldl (fun acc cur => if cur.1 < acc.1 then cur else acc) first
    (best.1, some best.2)
  | [] =>
    match responses.lookup "default" with
    | some r => (200, some r)
    | none =>
      match responses with
      | (k, r) :: _ => ((statusKeyNat k).getD 200, some r)
      | [] => (200, none)

/-- Status-code resolution of `mockResponseForOperation` (lines 358–371):
a truthy `opts.code` that is declared in the responses map wins, else the
default status-code match is used. -/
def resolveStatusResponse (responses : List (String × ResponseObj))
    (code : Option Nat) : Nat × Option ResponseObj :=
  match code with
  | some c =>
    if c != 0 then
      match responses.lookup (toString c) with
      | some r => (c, some r)
      | none => findDefaultStatusCodeMatch responses
    else findDefaultStatusCodeMatch responses
  | none => findDefaultStatusCodeMatch responses

/-- The key looked up in the content map:
`const mediaType = opts.mediaType || 'application/json'` (a given but
empty `mediaType` option is falsy and falls back to `application/json`). -/
def mediaTypeKey (mediaType : Option String) : String :=
  match mediaType with
  | some s => if s = "" then "application/json" else s
  | none => "application/json"

/-- Media-type resolution (lines 381–382):
`content[mediaType] || content[Object.keys(content)[0]]`. -/
def resolveMediaEntry (content : List (String × MediaObj))
    (mediaType : Option String) : Option MediaObj :=
  match content.lookup (mediaTypeKey mediaType) with
  | some m => some m
  | none => (content.head?).map Prod.snd

/-- The requested-example step (lines 389–394): when a truthy `example`
option is given and an `examples` map is present, the value of the named
example — provided the entry exists and its value is truthy.  `none`
means the step does not return and the source falls through. -/
def requestedExampleValue (m : MediaObj) (exampleOpt : Option String) : Option Json :=
  match exampleOpt, m.examples with
  | some name, some exs =>
    if name = "" then none
    else
      match exs.lookup name with
      | some v => if v.truthy then some v else none
      | none => none
  | _, _ => none

/-- The example/schema selection on a resolved media entry
(lines 386–413): requested named example, else truthy inline example,
else the first named example (a present-but-empty `examples` map makes
`examples[Object.keys(examples)[0]].value` throw a `TypeError`), else a
value synthesised from the schema by the external `mock` generator
`mockFn`, else the empty-object default. -/
def pickMockFromMedia (mockFn : Json → Json) (m : MediaObj)
    (exampleOpt : Option String) : Except String Json :=
  match requestedExampleValue m exampleOpt with
  | some v => Except.ok v
  | none =>
    if m.inlineExample.truthy then Except.ok m.inlineExample
    else
      match m.examples with
      | some exs =>
        match exs.head? with
        | some (_, v) => Except.ok v
        | none => Except.error "TypeError: cannot read property value of undefined"
      | none =>
        match m.schema with
        | some s => Except.ok (mockFn s)
        | none => Except.ok (Json.obj [])

/-- `mockResponseForOperation` (lines 342–414), parameterised over the
router's `getOperation` lookup and the external `mock-json-schema`
generator `mockFn`.  `Except.error` models a thrown exception. -/
def mockResponseForOperation (getOperation : String → Option Operation)
    (mockFn : Json → Json) (operationId : String) (opts : MockOpts) :
    Except String (Nat × Json) :=
  match getOperation operationId with
  | none => Except.ok (200, Json.obj [])
  | some operation =>
    match operation.responses with
    | none => Except.ok (200, Json.obj [])
    | some responses =>
      match resolveStatusResponse responses opts.code with
      | (status, none) => Except.ok (status, Json.obj [])
      | (status, some response) =>
        match response.content with
        | none => Except.ok (status, Json.obj [])
        | some content =>
          match resolveMediaEntry content opts.mediaType with
          | none => Except.ok (status, Json.obj [])
          | some mediaResponse =>
            match pickMockFromMedia mockFn mediaResponse opts.exampleName with
            | Except.ok mock => Except.ok (status, mock)
            | Except.error e => Except.error e

/-! ## Concrete instances used by closed theorems -/

/-- A trivially callable handler. -/
def hFn : Handler := fun _ _ => Json.null

/-- A handler returning the number 44, registered under `'404'` below. -/
def h404 : Handler := fun _ _ => Json.num 44

/-- A router that parses every request to `Json.null` and always returns
the given match result. -/
def constRouter (op : Option Operation) : Router :=
  { parseRequest := fun _ _ => Json.null, matchOperation := fun _ => op }

/-- A backend with only a `'404'` handler, whose router matches nothing. -/
def bNoMatch : Backend :=
  { router := constRouter none
    validator := fun _ _ => {}
    handlers := [("404", h404)] }

/-- The context the `'404'` handler of `bNoMatch` receives. -/
def ctx404 : Ctx := { request := some Json.null }

/-- The external `mock-json-schema` generator instantiated for closed
theorems: synthesises the fixed string `"fromSchema"` for any schema. -/
def mockConst : Json → Json := fun _ => Json.str "fromSchema"

/-- An operation whose only declared response (`404`) has no content. -/
def opNoContent : Operation :=
  { operationId := some "op", responses := some [("404", {})] }

/-- An operation whose 200 response's `application/json` entry declares a
present-but-empty named-examples map next to a schema. -/
def opEmptyExamples : Operation :=
  { operationId := some "op"
    responses := some [("200",
      { content := some [("application/json",
          { examples := some [], schema := some (Json.obj []) })] })] }

/-- A media entry with one named example `a` (value `1`) and a schema. -/
def mediaC5 : MediaObj :=
  { examples := some [("a", Json.num 1)], schema := some (Json.obj []) }

/-- An operation carrying `mediaC5` under its 200 response. -/
def opC5 : Operation :=
  { operationId := some "op"
    responses := some [("200", { content := some [("application/json", mediaC5)] })] }

/-- A media entry with inline example `"P"`. -/
def mPlain : MediaObj := { inlineExample := Json.str "P" }

/-- A media entry with inline example `"J"`. -/
def mJson : MediaObj := { inlineExample := Json.str "J" }

/-- An operation declaring `text/plain` before `application/json` in its
200 response's content map. -/
def opC6 : Operation :=
  { operationId := some "op"
    responses := some [("200",
      { content := some [("text/plain", mPlain), ("application/json", mJson)] })] }

/-- A media entry with a single named example `a` (value `5`). -/
def mW5 : MediaObj := { examples := some [("a", Json.num 5)] }

/-- An operation carrying `mW5` under its 200 response. -/
def opW5 : Operation :=
  { operationId := some "op"
    responses := some [("200", { content := some [("application/json", mW5)] })] }

/-- The context passed to the validation-fail or route handler after the
validator ran: the gate context extended with the validation result. -/
def vctx (b : Backend) (req : Request) (op : Operation) : Ctx :=
  { gateCtx b req op with validation := some (b.validator req op) }

/-- A validator reporting one error finding. -/
def errValidator : Request → Operation → ValidationResult :=
  fun _ _ => { valid := false, errors := some ["err"] }

/-- A validator reporting no findings (`errors` stays `undefined`). -/
def okValidator : Request → Operation → ValidationResult := fun _ _ => {}

/-- Handlers returning distinguishable numbers. -/
def hOne : Handler := fun _ _ => Json.num 1

/-- See `hOne`. -/
def hTwo : Handler := fun _ _ => Json.num 2

/-- See `hOne`. -/
def hSeven : Handler := fun _ _ => Json.num 7

/-- The operation matched by the closed dispatch theorems. -/
def opX : Operation := { operationId := some "X", path := "/x" }

/-- Operation `X` matches, no handler under `X`, no `501`/`notImplemented`
handler — but validation fails and a `validationFail` handler is
registered, so the request exits through it instead of raising. -/
def bC1 : Backend :=
  { router := constRouter (some opX)
    validator := errValidator
    handlers := [("validationFail", hSeven)] }

/-- A handler is registered under `X`, but the failed validation diverts
to the registered `validationFail` handler. -/
def bC3 : Backend :=
  { router := constRouter (some opX)
    validator := errValidator
    handlers := [("X", hOne), ("validationFail", hTwo)] }

/-- No handlers at all and a router that matches nothing. -/
def bEmptyNone : Backend :=
  { router := constRouter none, validator := okValidator, handlers := [] }

/-- No handlers at all, operation `X` matches, validation passes. -/
def bEmptyX : Backend :=
  { router := constRouter (some opX), validator := okValidator, handlers := [] }

/-- Only a `validationFail` handler; operation `X` matches and validation
fails. -/
def bC2W : Backend :=
  { router := constRouter (some opX)
    validator := errValidator
    handlers := [("validationFail", hTwo)] }

/-- A business handler for `X` plus a `postResponseHandler`. -/
def bC9 : Backend :=
  { router := constRouter (some opX)
    validator := okValidator
    handlers := [("X", hOne), ("postResponseHandler", hTwo)] }

/-- The context the business handler of `bC9` receives. -/
def ctxC9 : Ctx :=
  { request := some Json.null, operation := some opX
    validation := some {}, response := none }

/-- A business handler for `X` with a per-request predicate gate that is
always false, over a validator that would report errors. -/
def bC10 : Backend :=
  { router := constRouter (some opX)
    validator := errValidator
    handlers := [("X", hOne)]
    validate := Gate.pred fun _ _ => false }

/-- A business handler for `X`, validation on and passing. -/
def bW3 : Backend :=
  { router := constRouter (some opX), validator := okValidator, handlers := [("X", hOne)] }

/-- The context a handler call carried, if any, had its `validation`
field still `undefined`. -/
def eventCtxValidationNone (e : Event) : Prop :=
  match e with
  | .handlerCall _ _ (some c) => c.validation = none
  | _ => True

/-! ## Theorems -/

/-- Updating the registry under a key makes that key resolve to the new
handler. -/
theorem lookup_setHandler (hs : List (String × Handler)) (k : String) (f : Handler) :
    (setHandler hs k f).lookup k = some f := by
  induction hs with
  | nil => simp [setHandler, List.lookup]
  | cons p rest ih =>
    rcases p with ⟨k1, f1⟩
    by_cases h : k1 = k
    · simp [setHandler, h, List.lookup]
    · have hb : (k1 == k) = false := by simp [h]
      have hb2 : (k == k1) = false := by simp [Ne.symm h]
      simp [setHandler, hb, List.lookup, hb2, ih]

/-- **C8 (amended).** `registerHandler` throws immediately on a
non-callable handler, regardless of strict mode or initialisation state.
For a callable handler on an *initialised* backend, an operationId that
matches no declared operation and is not one of the `allowedHandlers`
keys makes it throw in strict mode, and in lenient mode emit the
`Unknown operationId` warning while still storing the handler.  (On an
uninitialised backend the operationId check is skipped entirely.) -/
theorem registerHandler_errors (initalized strict : Bool)
    (getOperation : String → Option Operation) (hs : List (String × Handler))
    (oid : String) (v : Json) (f : Handler) :
    (registerHandler initalized strict getOperation hs oid (.notFn v) =
      Except.error "Handler should be a function")
    ∧ (initalized = true → getOperation oid = none →
        allowedHandlers.contains oid = false →
        (strict = true → registerHandler initalized strict getOperation hs oid (.fn f) =
          Except.error ("Unknown operationId " ++ oid ++ ". Refusing to register handler"))
        ∧ (strict = false → registerHandler initalized strict getOperation hs oid (.fn f) =
            Except.ok (setHandler hs oid f, some ("Unknown operationId " ++ oid))
            ∧ (setHandler hs oid f).lookup oid = some f)) := by
  refine ⟨rfl, ?_⟩
  intro hinit hget hallowed
  subst hinit
  have hmem : oid ∉ allowedHandlers := by simpa using hallowed
  constructor
  · intro hstrict
    subst hstrict
    simp [registerHandler, hget, hmem]
  · intro hstrict
    subst hstrict
    simp [registerHandler, hget, hmem, lookup_setHandler]

/-- **C8 witness.** Concrete application of `registerHandler_errors`:
an initialised strict backend refuses the unknown key `"foo"`. -/
theorem registerHandler_errors_witness :
    registerHandler true true (fun _ => none) [] "foo" (.fn hFn) =
      Except.error "Unknown operationId foo. Refusing to register handler" :=
  ((registerHandler_errors true true (fun _ => none) [] "foo" Json.null hFn).2
    rfl rfl (by decide)).1 rfl

/-- **C8 counterexample.** On an *uninitialised* backend, registering a
callable handler for an operationId that matches no declared operation
succeeds silently even in strict mode — the claim's unconditional
"throws in strict mode" does not hold before initialisation. -/
theorem registerHandler_uninitialized_strict_accepts :
    registerHandler false true (fun _ => none) [] "foo" (.fn hFn) =
      Except.ok ([("foo", hFn)], none) := rfl

/-- **C7 (code bug).** The key `'404'` is honoured by `handleRequest` as a
not-found fallback, yet it is missing from `allowedHandlers` (line 65),
so on an initialised backend whose document declares no operation with
operationId `'404'`, `registerHandler('404', …)` emits the
`Unknown operationId 404` warning in lenient mode and refuses the
registration in strict mode — contradicting the spec's reserved-key
exclusion, which the dispatch code itself supports. -/
theorem reserved404_registration_warns :
    ("404" ∈ allowedHandlers ↔ False)
    ∧ (registerHandler true false (fun _ => none) [] "404" (.fn h404) =
        Except.ok ([("404", h404)], some "Unknown operationId 404"))
    ∧ (registerHandler true true (fun _ => none) [] "404" (.fn h404) =
        Except.error "Unknown operationId 404. Refusing to register handler")
    ∧ (handleRequest bNoMatch {} [] =
        (Except.ok (Json.num 44),
         [Event.handlerCall Role.notFound "404" (some ctx404)])) :=
  ⟨by decide, rfl, rfl, rfl⟩

/-- The example/schema pick on a media entry succeeds whenever the
named-examples map is not present-but-empty. -/
theorem pickMockFromMedia_ok (mockFn : Json → Json) (m : MediaObj)
    (eo : Option String) (h : m.examples ≠ some []) :
    ∃ v, pickMockFromMedia mockFn m eo = Except.ok v := by
  rcases hreq : requestedExampleValue m eo with _ | v
  · by_cases ht : m.inlineExample.truthy = true
    · exact ⟨m.inlineExample, by simp [pickMockFromMedia, hreq, ht]⟩
    · rcases hex : m.examples with _ | exs
      · rcases hs : m.schema with _ | s
        · exact ⟨Json.obj [], by simp [pickMockFromMedia, hreq, ht, hex, hs]⟩
        · exact ⟨mockFn s, by simp [pickMockFromMedia, hreq, ht, hex, hs]⟩
      · rcases exs with _ | ⟨p, rest⟩
        · exact absurd hex h
        · exact ⟨p.2, by simp [pickMockFromMedia, hreq, ht, hex]⟩
  · exact ⟨v, by simp [pickMockFromMedia, hreq]⟩

/-- **C4 (amended).** `mockResponseForOperation` returns the
status-200-empty-object pair when the operation is unknown or has no
responses; when the selected response is absent, has no content, or
resolves no media entry, it returns the *resolved* status (not
necessarily 200) with the empty-object mock; and it returns a pair
(never throws) whenever the resolved media entry's named-examples map is
not present-but-empty. -/
theorem mockResponseForOperation_total_and_fallbacks
    (getOperation : String → Option Operation) (mockFn : Json → Json)
    (oid : String) (opts : MockOpts) :
    (getOperation oid = none →
      mockResponseForOperation getOperation mockFn oid opts = Except.ok (200, Json.obj []))
    ∧ (∀ op, getOperation oid = some op → op.responses = none →
        mockResponseForOperation getOperation mockFn oid opts = Except.ok (200, Json.obj []))
    ∧ (∀ op rs st, getOperation oid = some op → op.responses = some rs →
        resolveStatusResponse rs opts.code = (st, none) →
        mockResponseForOperation getOperation mockFn oid opts = Except.ok (st, Json.obj []))
    ∧ (∀ op rs st r, getOperation oid = some op → op.responses = some rs →
        resolveStatusResponse rs opts.code = (st, some r) → r.content = none →
        mockResponseForOperation getOperation mockFn oid opts = Except.ok (st, Json.obj []))
    ∧ (∀ op rs st r content, getOperation oid = some op → op.responses = some rs →
        resolveStatusResponse rs opts.code = (st, some r) → r.content = some content →
        resolveMediaEntry content opts.mediaType = none →
        mockResponseForOperation getOperation mockFn oid opts = Except.ok (st, Json.obj []))
    ∧ (∀ op rs st r content m, getOperation oid = some op → op.responses = some rs →
        resolveStatusResponse rs opts.code = (st, some r) → r.content = some content →
        resolveMediaEntry content opts.mediaType = some m →
        m.examples ≠ some [] →
        ∃ v, mockResponseForOperation getOperation mockFn oid opts = Except.ok (st, v)) := by
  refine ⟨?_, ?_, ?_, ?_, ?_, ?_⟩
  · intro hget
    simp [mockResponseForOperation, hget]
  · intro op hget hresp
    simp [mockResponseForOperation, hget, hresp]
  · intro op rs st hget hresp hrs
    simp [mockResponseForOperation, hget, hresp, hrs]
  · intro op rs st r hget hresp hrs hc
    simp [mockResponseForOperation, hget, hresp, hrs, hc]
  · intro op rs st r content hget hresp hrs hc hm
    simp [mockResponseForOperation, hget, hresp, hrs, hc, hm]
  · intro op rs st r content m hget hresp hrs hc hm hex
    obtain ⟨v, hv⟩ := pickMockFromMedia_ok mockFn m opts.exampleName hex
    exact ⟨v, by simp [mockResponseForOperation, hget, hresp, hrs, hc, hm, hv]⟩

/-- **C4 witness.** Concrete application of
`mockResponseForOperation_total_and_fallbacks` to an unknown
operationId. -/
theorem mockResponseForOperation_total_witness :
    mockResponseForOperation (fun _ => none) mockConst "nope" {} =
      Except.ok (200, Json.obj []) :=
  (mockResponseForOperation_total_and_fallbacks (fun _ => none) mockConst "nope" {}).1 rfl

/-- **C4 counterexample.** The claim fails on the code twice over: a `404`
response selected via `opts.code` that has no content yields status 404
(not 200) with the empty object; and a present-but-empty named-examples
map makes the function throw a `TypeError` instead of returning. -/
theorem mockResponseForOperation_not_as_claimed :
    (mockResponseForOperation (fun _ => some opNoContent) mockConst "op"
        { code := some 404 } = Except.ok (404, Json.obj []))
    ∧ (mockResponseForOperation (fun _ => some opEmptyExamples) mockConst "op" {} =
        Except.error "TypeError: cannot read property value of undefined") :=
  ⟨rfl, rfl⟩

/-- **C5 (amended).** On a resolved media entry the mock body is picked
by: (1) the value of the named example matching a truthy `example`
option, provided the entry exists *and its value is truthy*; (2) else the
inline example when truthy; (3) else the first named example in
declaration order *whether or not an example was requested*; (4) else a
value synthesised from the schema. -/
theorem mock_example_priority
    (getOperation : String → Option Operation) (mockFn : Json → Json)
    (oid : String) (opts : MockOpts) (op : Operation)
    (rs : List (String × ResponseObj)) (st : Nat) (r : ResponseObj)
    (content : List (String × MediaObj)) (m : MediaObj)
    (hget : getOperation oid = some op) (hresp : op.responses = some rs)
    (hst : resolveStatusResponse rs opts.code = (st, some r))
    (hc : r.content = some content)
    (hm : resolveMediaEntry content opts.mediaType = some m) :
    (mockResponseForOperation getOperation mockFn oid opts =
      (pickMockFromMedia mockFn m opts.exampleName).map (fun v => (st, v)))
    ∧ (∀ name exs v, opts.exampleName = some name → name ≠ "" →
        m.examples = some exs → exs.lookup name = some v → v.truthy = true →
        pickMockFromMedia mockFn m opts.exampleName = Except.ok v)
    ∧ (requestedExampleValue m opts.exampleName = none →
        m.inlineExample.truthy = true →
        pickMockFromMedia mockFn m opts.exampleName = Except.ok m.inlineExample)
    ∧ (∀ n v rest, requestedExampleValue m opts.exampleName = none →
        m.inlineExample.truthy = false → m.examples = some ((n, v) :: rest) →
        pickMockFromMedia mockFn m opts.exampleName = Except.ok v)
    ∧ (∀ s, requestedExampleValue m opts.exampleName = none →
        m.inlineExample.truthy = false → m.examples = none → m.schema = some s →
        pickMockFromMedia mockFn m opts.exampleName = Except.ok (mockFn s)) := by
  refine ⟨?_, ?_, ?_, ?_, ?_⟩
  · cases hp : pickMockFromMedia mockFn m opts.exampleName with
    | ok v => simp [mockResponseForOperation, hget, hresp, hst, hc, hm, hp, Except.map]
    | error e => simp [mockResponseForOperation, hget, hresp, hst, hc, hm, hp, Except.map]
  · intro name exs v hname hne hexs hlk htr
    simp [pickMockFromMedia, requestedExampleValue, hname, hexs, hne, hlk, htr]
  · intro hreq htr
    simp [pickMockFromMedia, hreq, htr]
  · intro n v rest hreq htr hexs
    simp [pickMockFromMedia, hreq, htr, hexs]
  · intro s hreq htr hexs hs
    simp [pickMockFromMedia, hreq, htr, hexs, hs]

/-- **C5 witness.** Concrete application of `mock_example_priority`: the
requested named example `a` with truthy value `5` is returned. -/
theorem mock_example_priority_witness :
    mockResponseForOperation (fun _ => some opW5) mockConst "op"
      { code := some 200, exampleName := some "a" } = Except.ok (200, Json.num 5) := by
  have h := mock_example_priority (fun _ => some opW5) mockConst "op"
    { code := some 200, exampleName := some "a" }
    opW5 [("200", { content := some [("application/json", mW5)] })] 200
    { content := some [("application/json", mW5)] } [("application/json", mW5)] mW5
    rfl rfl rfl rfl rfl
  rw [h.1, h.2.1 "a" [("a", Json.num 5)] (Json.num 5) rfl (by decide) rfl rfl (by decide)]
  rfl

/-- **C5 counterexample.** With a requested example name that matches no
declared named example and a schema present, the claim's step (4) says
the schema-synthesised value is returned; the code instead returns the
first named example's value (`1`, not the generator's output). -/
theorem mock_example_priority_not_as_claimed :
    (mockResponseForOperation (fun _ => some opC5) mockConst "op"
        { code := some 200, exampleName := some "zzz" } = Except.ok (200, Json.num 1))
    ∧ Json.num 1 ≠ mockConst (Json.obj []) := by
  refine ⟨rfl, ?_⟩
  intro h
  exact Json.noConfusion h

/-- **C6 (amended).** The media entry is picked by looking up a single
key — the `mediaType` option when given and truthy, else
`application/json` — and falling back to the *first* declared media type
whenever that one key is absent (the `application/json` default is tried
only when no `mediaType` option was given). -/
theorem resolveMediaEntry_priority (content : List (String × MediaObj))
    (mo : Option String) :
    (∀ m, content.lookup (mediaTypeKey mo) = some m →
      resolveMediaEntry content mo = some m)
    ∧ (content.lookup (mediaTypeKey mo) = none →
        resolveMediaEntry content mo = content.head?.map Prod.snd)
    ∧ (∀ s, mo = some s → s ≠ "" → mediaTypeKey mo = s)
    ∧ (mo = none → mediaTypeKey mo = "application/json") := by
  refine ⟨?_, ?_, ?_, ?_⟩
  · intro m hlk
    simp [resolveMediaEntry, hlk]
  · intro hlk
    simp [resolveMediaEntry, hlk]
  · intro s hmo hne
    simp [mediaTypeKey, hmo, hne]
  · intro hmo
    simp [mediaTypeKey, hmo]

/-- **C6 witness.** Concrete application of `resolveMediaEntry_priority`:
a declared `application/json` option is looked up directly. -/
theorem resolveMediaEntry_priority_witness :
    resolveMediaEntry [("application/json", mJson)] (some "application/json") =
      some mJson ∧ mediaTypeKey (some "application/json") = "application/json" := by
  have h := resolveMediaEntry_priority [("application/json", mJson)] (some "application/json")
  exact ⟨h.1 mJson rfl, h.2.2.1 "application/json" rfl (by decide)⟩

/-- **C6 counterexample.** With `mediaType := text/html` undeclared while
`application/json` *is* declared (second in declaration order), the claim
says the `application/json` entry is used; the code falls back to the
first declared media type (`text/plain`) instead, returning its inline
example `"P"` rather than `"J"`. -/
theorem resolveMediaEntry_not_as_claimed :
    (mockResponseForOperation (fun _ => some opC6) mockConst "op"
        { code := some 200, mediaType := some "text/html" } =
      Except.ok (200, Json.str "P"))
    ∧ Json.str "P" ≠ Json.str "J" := by
  refine ⟨rfl, ?_⟩
  intro h
  injection h with h2
  exact absurd h2 (by decide)

/-! ### Dispatch-pipeline helper lemmas -/

/-- A matched operation with a truthy operationId sends `handleInner`
into the main branch. -/
theorem handleInner_matched (b : Backend) (req : Request) (args : List Json)
    (op : Operation) (oid : String) (hm : b.router.matchOperation req = some op)
    (hoid : op.operationId = some oid) (hne : oid ≠ "") :
    handleInner b req args = mainBranch b req op oid args := by
  simp [handleInner, hm, hoid, hne]

/-- With the gate off, the main branch goes straight to route
resolution with an empty trace. -/
theorem mainBranch_gate_false (b : Backend) (req : Request) (op : Operation)
    (oid : String) (args : List Json)
    (h : gateEval b.validate (gateCtx b req op) args = false) :
    mainBranch b req op oid args = dispatchRoute b oid (gateCtx b req op) args [] := by
  simp [mainBranch, h]

/-- With the gate on and no validation findings, the main branch goes to
route resolution with the validated context. -/
theorem mainBranch_valid (b : Backend) (req : Request) (op : Operation)
    (oid : String) (args : List Json)
    (hg : gateEval b.validate (gateCtx b req op) args = true)
    (he : (b.validator req op).errors = none) :
    mainBranch b req op oid args =
      dispatchRoute b oid (vctx b req op) args [Event.validateCall (b.validator req op)] := by
  simp [mainBranch, hg, he, vctx]

/-- With the gate on, validation findings, and no `validationFail`
handler, the main branch still goes to route resolution. -/
theorem mainBranch_invalid_nofail (b : Backend) (req : Request) (op : Operation)
    (oid : String) (args : List Json)
    (hg : gateEval b.validate (gateCtx b req op) args = true)
    (he : (b.validator req op).errors.isSome = true)
    (hvf : b.handlers.lookup "validationFail" = none) :
    mainBranch b req op oid args =
      dispatchRoute b oid (vctx b req op) args [Event.validateCall (b.validator req op)] := by
  simp [mainBranch, hg, he, hvf, vctx]

/-- With the gate on, validation findings, and a registered
`validationFail` handler, the main branch returns that handler's value. -/
theorem mainBranch_invalid_fail (b : Backend) (req : Request) (op : Operation)
    (oid : String) (args : List Json) (h : Handler)
    (hg : gateEval b.validate (gateCtx b req op) args = true)
    (he : (b.validator req op).errors.isSome = true)
    (hvf : b.handlers.lookup "validationFail" = some h) :
    mainBranch b req op oid args =
      (Except.ok (h (if b.withContext then some (vctx b req op) else none) args, vctx b req op),
       [Event.validateCall (b.validator req op),
        Event.handlerCall Role.validationFail "validationFail"
          (if b.withContext then some (vctx b req op) else none)]) := by
  simp [mainBranch, hg, he, hvf, vctx, invokeHandler]

/-- Route resolution with a registered handler invokes it at the
business call site. -/
theorem dispatchRoute_business (b : Backend) (oid : String) (ctx : Ctx)
    (args : List Json) (evs : List Event) (rh : Handler)
    (h : b.handlers.lookup oid = some rh) :
    dispatchRoute b oid ctx args evs =
      (Except.ok (rh (if b.withContext then some ctx else none) args, ctx),
       evs ++ [Event.handlerCall Role.business oid
          (if b.withContext then some ctx else none)]) := by
  simp [dispatchRoute, h, invokeHandler]

/-- Route resolution with no registered handler and no `501` /
`notImplemented` fallback throws the structured 501 failure. -/
theorem dispatchRoute_error (b : Backend) (oid : String) (ctx : Ctx)
    (args : List Json) (evs : List Event)
    (h1 : b.handlers.lookup oid = none) (h2 : b.handlers.lookup "501" = none)
    (h3 : b.handlers.lookup "notImplemented" = none) :
    dispatchRoute b oid ctx args evs =
      (Except.error ("501-notImplemented: " ++ oid ++ " no handler registered"), evs) := by
  simp [dispatchRoute, notImplementedLookup, h1, h2, h3]

/-- `handleRequest` propagates an inner throw unchanged (no
post-response handler runs). -/
theorem handleRequest_of_inner_error (b : Backend) (req : Request)
    (args : List Json) (msg : String) (evs : List Event)
    (h : handleInner b req args = (Except.error msg, evs)) :
    handleRequest b req args = (Except.error msg, evs) := by
  simp [handleRequest, h]

/-! ### C1 -/

/-- **C1 (amended).** When no operation (or no truthy operationId) is
matched and neither a `'404'` nor a `'notFound'` handler is registered,
`handleRequest` raises the structured 404 failure and invokes no handler.
When an operation with operationId `oid` is matched but no handler is
registered under `oid` nor under `'501'`/`'notImplemented'`, and the
request does not exit through a registered `validationFail` handler on
validation findings, `handleRequest` raises the structured 501 failure
naming `oid` and invokes no handler.  The model's `Backend` is left
untouched — `handleRequest` is a pure function of it — so the instance
stays usable for subsequent requests. -/
theorem handleRequest_missing_fallbacks_raise (b : Backend) (req : Request)
    (args : List Json) :
    ((b.router.matchOperation req = none
        ∨ (∃ op, b.router.matchOperation req = some op ∧ op.operationId = none)
        ∨ (∃ op, b.router.matchOperation req = some op ∧ op.operationId = some "")) →
      b.handlers.lookup "404" = none → b.handlers.lookup "notFound" = none →
      handleRequest b req args = (Except.error "404-notFound: no route matches request", []))
    ∧ (∀ op oid, b.router.matchOperation req = some op → op.operationId = some oid →
        oid ≠ "" → b.handlers.lookup oid = none →
        b.handlers.lookup "501" = none → b.handlers.lookup "notImplemented" = none →
        (b.handlers.lookup "validationFail" = none
          ∨ gateEval b.validate (gateCtx b req op) args = false
          ∨ (b.validator req op).errors = none) →
        (handleRequest b req args).1 =
          Except.error ("501-notImplemented: " ++ oid ++ " no handler registered")
        ∧ callSites (handleRequest b req args).2 = []) := by
  constructor
  · intro hmatch h404 hnf
    have hlk : notFoundLookup b.handlers = none := by
      simp [notFoundLookup, h404, hnf]
    rcases hmatch with hm | ⟨op, hm, hop⟩ | ⟨op, hm, hop⟩
    · simp [handleRequest, handleInner, hm, notFoundBranch, hlk]
    · simp [handleRequest, handleInner, hm, hop, notFoundBranch, hlk]
    · simp [handleRequest, handleInner, hm, hop, notFoundBranch, hlk]
  · intro op oid hm hoid hne hroute h501 hni hnint
    have hInner : handleInner b req args = mainBranch b req op oid args :=
      handleInner_matched b req args op oid hm hoid hne
    cases hgate : gateEval b.validate (gateCtx b req op) args with
    | false =>
      have h : handleInner b req args =
          (Except.error ("501-notImplemented: " ++ oid ++ " no handler registered"), []) := by
        rw [hInner, mainBranch_gate_false b req op oid args hgate,
          dispatchRoute_error b oid _ args [] hroute h501 hni]
      rw [handleRequest_of_inner_error b req args _ _ h]
      exact ⟨rfl, rfl⟩
    | true =>
      cases herrs : (b.validator req op).errors with
      | none =>
        have h : handleInner b req args =
            (Except.error ("501-notImplemented: " ++ oid ++ " no handler registered"),
             [Event.validateCall (b.validator req op)]) := by
          rw [hInner, mainBranch_valid b req op oid args hgate herrs,
            dispatchRoute_error b oid _ args _ hroute h501 hni]
        rw [handleRequest_of_inner_error b req args _ _ h]
        exact ⟨rfl, rfl⟩
      | some l =>
        have hvf : b.handlers.lookup "validationFail" = none := by
          rcases hnint with h | h | h
          · exact h
          · rw [hgate] at h; cases h
          · rw [herrs] at h; cases h
        have hsome : (b.validator req op).errors.isSome = true := by
          rw [herrs]; rfl
        have h : handleInner b req args =
            (Except.error ("501-notImplemented: " ++ oid ++ " no handler registered"),
             [Event.validateCall (b.validator req op)]) := by
          rw [hInner, mainBranch_invalid_nofail b req op oid args hgate hsome hvf,
            dispatchRoute_error b oid _ args _ hroute h501 hni]
        rw [handleRequest_of_inner_error b req args _ _ h]
        exact ⟨rfl, rfl⟩

/-- **C1 witness.** Concrete applications of
`handleRequest_missing_fallbacks_raise`: with no handlers registered, an
unmatched request raises the 404 failure and a matched-but-unhandled
request raises the 501 failure naming the operationId. -/
theorem handleRequest_missing_fallbacks_raise_witness :
    (handleRequest bEmptyNone {} [] =
      (Except.error "404-notFound: no route matches request", []))
    ∧ (handleRequest bEmptyX {} []).1 =
        Except.error ("501-notImplemented: " ++ "X" ++ " no handler registered")
    ∧ callSites (handleRequest bEmptyX {} []).2 = [] := by
  refine ⟨?_, ?_, ?_⟩
  · exact (handleRequest_missing_fallbacks_raise bEmptyNone {} []).1 (Or.inl rfl) rfl rfl
  · exact ((handleRequest_missing_fallbacks_raise bEmptyX {} []).2 opX "X" rfl rfl
      (by decide) rfl rfl rfl (Or.inl rfl)).1
  · exact ((handleRequest_missing_fallbacks_raise bEmptyX {} []).2 opX "X" rfl rfl
      (by decide) rfl rfl rfl (Or.inl rfl)).2

/-- **C1 counterexample.** Operation `X` is matched, no handler is
registered under `X` and no `'501'`/`'notImplemented'` handler exists —
yet `handleRequest` does *not* raise: the failed validation exits through
the registered `validationFail` handler and returns its value. -/
theorem handleRequest_validationFail_intercepts_501 :
    (handleRequest bC1 {} []).1 = Except.ok (Json.num 7) := rfl

/-! ### C2 -/

/-- The post-response step only ever appends a `postResponse`-role call,
so the per-role call keys of `handleRequest` and of the inner pipeline
agree for every other role. -/
theorem roleCalls_handleRequest_ne_post (b : Backend) (req : Request)
    (args : List Json) (r : Role) (h : r ≠ Role.postResponse) :
    roleCalls (handleRequest b req args).2 r = roleCalls (handleInner b req args).2 r := by
  rcases hInner : handleInner b req args with ⟨res, evs⟩
  cases res with
  | error msg => simp [handleRequest, hInner]
  | ok vc =>
    rcases vc with ⟨v, ctx⟩
    cases hp : b.handlers.lookup "postResponseHandler" with
    | none => simp [handleRequest, hInner, hp]
    | some p =>
      simp [handleRequest, hInner, hp, invokeHandler, roleCalls,
        List.filterMap_append, Ne.symm h]

/-- Route resolution invokes the same call sites in the same order for
two backends with the same registry, whatever the contexts and
equal-call-site prefixes. -/
theorem callSites_dispatchRoute_eq (b b2 : Backend) (oid : String)
    (c1 c2 : Ctx) (args : List Json) (evs1 evs2 : List Event)
    (hh : b2.handlers = b.handlers)
    (hevs : callSites evs1 = callSites evs2) :
    callSites (dispatchRoute b oid c1 args evs1).2 =
      callSites (dispatchRoute b2 oid c2 args evs2).2 := by
  unfold dispatchRoute
  rw [hh]
  cases h : b.handlers.lookup oid with
  | some rh =>
    simpa [invokeHandler, callSites, List.filterMap_append] using hevs
  | none =>
    cases h2 : notImplementedLookup b.handlers with
    | none => simpa using hevs
    | some kh =>
      simpa [invokeHandler, callSites, List.filterMap_append] using hevs

/-- **C2 (confirmed).** On a request where the gate is on and the
validator reports findings: a registered `validationFail` handler is
invoked (with the validated context) and the business call site is never
reached; with no `validationFail` handler, the registered route handler
is invoked exactly as for a valid request — the same call sites fire as
with a validator that reports no findings — and no exception is raised
by the validation errors themselves. -/
theorem validation_errors_advisory (b : Backend) (req : Request)
    (args : List Json) (op : Operation) (oid : String)
    (hm : b.router.matchOperation req = some op) (hoid : op.operationId = some oid)
    (hne : oid ≠ "")
    (hg : gateEval b.validate (gateCtx b req op) args = true)
    (he : (b.validator req op).errors.isSome = true) :
    (∀ h, b.handlers.lookup "validationFail" = some h →
      handleInner b req args =
        (Except.ok (h (if b.withContext then some (vctx b req op) else none) args,
          vctx b req op),
         [Event.validateCall (b.validator req op),
          Event.handlerCall Role.validationFail "validationFail"
            (if b.withContext then some (vctx b req op) else none)])
      ∧ roleCalls (handleRequest b req args).2 Role.business = [])
    ∧ (b.handlers.lookup "validationFail" = none →
        (∀ rh, b.handlers.lookup oid = some rh →
          handleInner b req args =
            (Except.ok (rh (if b.withContext then some (vctx b req op) else none) args,
              vctx b req op),
             [Event.validateCall (b.validator req op),
              Event.handlerCall Role.business oid
                (if b.withContext then some (vctx b req op) else none)]))
        ∧ callSites (handleInner b req args).2 =
            callSites (handleInner { b with validator := fun _ _ => {} } req args).2) := by
  constructor
  · intro h hvf
    have heq := mainBranch_invalid_fail b req op oid args h hg he hvf
    constructor
    · rw [handleInner_matched b req args op oid hm hoid hne, heq]
    · rw [roleCalls_handleRequest_ne_post b req args Role.business (by decide),
        handleInner_matched b req args op oid hm hoid hne, heq]
      simp [roleCalls]
  · intro hvf
    constructor
    · intro rh hrh
      rw [handleInner_matched b req args op oid hm hoid hne,
        mainBranch_invalid_nofail b req op oid args hg he hvf,
        dispatchRoute_business b oid _ args _ rh hrh]
      rfl
    · rw [handleInner_matched b req args op oid hm hoid hne,
        mainBranch_invalid_nofail b req op oid args hg he hvf,
        handleInner_matched { b with validator := fun _ _ => {} } req args op oid hm hoid hne,
        mainBranch_valid { b with validator := fun _ _ => {} } req op oid args hg rfl]
      exact callSites_dispatchRoute_eq b { b with validator := fun _ _ => {} } oid
        _ _ args _ _ rfl rfl

/-- **C2 witness.** Concrete application of `validation_errors_advisory`:
with only a `validationFail` handler registered and a failing validator,
the inner pipeline returns that handler's value (`2`) and the business
call site never fires. -/
theorem validation_errors_advisory_witness :
    (handleInner bC2W {} []).1 = Except.ok (Json.num 2, vctx bC2W {} opX)
    ∧ roleCalls (handleRequest bC2W {} []).2 Role.business = [] := by
  have h := (validation_errors_advisory bC2W {} [] opX "X" rfl rfl (by decide)
    rfl rfl).1 hTwo rfl
  refine ⟨?_, h.2⟩
  rw [h.1]
  rfl

/-! ### C3 -/

/-- **C3 (amended).** Registering a handler under operationId `oid` and
dispatching a matching request invokes that handler exactly once at the
business call site, and none of the fallbacks (`notFound`,
`validationFail`, `notImplemented`) fire — provided the request does not
exit through the validation-fail path (gate off, or no findings, or no
`validationFail` handler registered). -/
theorem handler_dispatch_invariant (b : Backend) (req : Request)
    (args : List Json) (op : Operation) (oid : String) (rh : Handler)
    (hm : b.router.matchOperation req = some op) (hoid : op.operationId = some oid)
    (hne : oid ≠ "") (hrh : b.handlers.lookup oid = some rh)
    (hnint : b.handlers.lookup "validationFail" = none
      ∨ gateEval b.validate (gateCtx b req op) args = false
      ∨ (b.validator req op).errors = none) :
    roleCalls (handleRequest b req args).2 Role.business = [oid]
    ∧ roleCalls (handleRequest b req args).2 Role.notFound = []
    ∧ roleCalls (handleRequest b req args).2 Role.validationFail = []
    ∧ roleCalls (handleRequest b req args).2 Role.notImplemented = [] := by
  cases hgate : gateEval b.validate (gateCtx b req op) args with
  | false =>
    have h : handleInner b req args =
        (Except.ok (rh (if b.withContext then some (gateCtx b req op) else none) args,
          gateCtx b req op),
         [Event.handlerCall Role.business oid
           (if b.withContext then some (gateCtx b req op) else none)]) := by
      rw [handleInner_matched b req args op oid hm hoid hne,
        mainBranch_gate_false b req op oid args hgate,
        dispatchRoute_business b oid _ args [] rh hrh]
      rfl
    refine ⟨?_, ?_, ?_, ?_⟩ <;>
      rw [roleCalls_handleRequest_ne_post b req args _ (by decide), h] <;>
      simp [roleCalls]
  | true =>
    cases herrs : (b.validator req op).errors with
    | none =>
      have h : handleInner b req args =
          (Except.ok (rh (if b.withContext then some (vctx b req op) else none) args,
            vctx b req op),
           [Event.validateCall (b.validator req op),
            Event.handlerCall Role.business oid
              (if b.withContext then some (vctx b req op) else none)]) := by
        rw [handleInner_matched b req args op oid hm hoid hne,
          mainBranch_valid b req op oid args hgate herrs,
          dispatchRoute_business b oid _ args _ rh hrh]
        rfl
      refine ⟨?_, ?_, ?_, ?_⟩ <;>
        rw [roleCalls_handleRequest_ne_post b req args _ (by decide), h] <;>
        simp [roleCalls]
    | some l =>
      have hvf : b.handlers.lookup "validationFail" = none := by
        rcases hnint with h | h | h
        · exact h
        · rw [hgate] at h; cases h
        · rw [herrs] at h; cases h
      have hsome : (b.validator req op).errors.isSome = true := by rw [herrs]; rfl
      have h : handleInner b req args =
          (Except.ok (rh (if b.withContext then some (vctx b req op) else none) args,
            vctx b req op),
           [Event.validateCall (b.validator req op),
            Event.handlerCall Role.business oid
              (if b.withContext then some (vctx b req op) else none)]) := by
        rw [handleInner_matched b req args op oid hm hoid hne,
          mainBranch_invalid_nofail b req op oid args hgate hsome hvf,
          dispatchRoute_business b oid _ args _ rh hrh]
        rfl
      refine ⟨?_, ?_, ?_, ?_⟩ <;>
        rw [roleCalls_handleRequest_ne_post b req args _ (by decide), h] <;>
        simp [roleCalls]

/-- **C3 witness.** Concrete application of `handler_dispatch_invariant`
with a passing validator: the `X` handler fires once, no fallbacks. -/
theorem handler_dispatch_invariant_witness :
    roleCalls (handleRequest bW3 {} []).2 Role.business = ["X"]
    ∧ roleCalls (handleRequest bW3 {} []).2 Role.notFound = []
    ∧ roleCalls (handleRequest bW3 {} []).2 Role.validationFail = []
    ∧ roleCalls (handleRequest bW3 {} []).2 Role.notImplemented = [] :=
  handler_dispatch_invariant bW3 {} [] opX "X" hOne rfl rfl (by decide) rfl (Or.inl rfl)

/-- **C3 counterexample.** A handler is registered under `X` and a
request matching `X` is dispatched — yet the business handler is never
invoked: the failed validation diverts to the registered
`validationFail` fallback. -/
theorem handler_dispatch_invariant_not_as_claimed :
    roleCalls (handleRequest bC3 {} []).2 Role.business = []
    ∧ roleCalls (handleRequest bC3 {} []).2 Role.validationFail = ["validationFail"] :=
  ⟨rfl, rfl⟩

/-! ### C9 -/

/-- The not-found branch never emits a post-response call. -/
theorem roleCalls_notFoundBranch_post (b : Backend) (ctx : Ctx) (args : List Json) :
    roleCalls (notFoundBranch b ctx args).2 Role.postResponse = [] := by
  rcases h : notFoundLookup b.handlers with _ | ⟨k, f⟩
  · simp [notFoundBranch, h, roleCalls]
  · simp [notFoundBranch, h, invokeHandler, roleCalls]

/-- Route resolution never emits a post-response call beyond those in
its accumulated prefix. -/
theorem roleCalls_dispatchRoute_post (b : Backend) (oid : String) (ctx : Ctx)
    (args : List Json) (evs : List Event)
    (h : roleCalls evs Role.postResponse = []) :
    roleCalls (dispatchRoute b oid ctx args evs).2 Role.postResponse = [] := by
  rcases h1 : b.handlers.lookup oid with _ | rh
  · rcases h2 : notImplementedLookup b.handlers with _ | ⟨k, f⟩
    · simpa [dispatchRoute, h1, h2] using h
    · simpa [dispatchRoute, h1, h2, invokeHandler, roleCalls,
        List.filterMap_append] using h
  · simpa [dispatchRoute, h1, invokeHandler, roleCalls,
      List.filterMap_append] using h

/-- The main branch never emits a post-response call. -/
theorem roleCalls_mainBranch_post (b : Backend) (req : Request) (op : Operation)
    (oid : String) (args : List Json) :
    roleCalls (mainBranch b req op oid args).2 Role.postResponse = [] := by
  cases hg : gateEval b.validate (gateCtx b req op) args with
  | false =>
    rw [mainBranch_gate_false b req op oid args hg]
    exact roleCalls_dispatchRoute_post b oid _ args [] rfl
  | true =>
    cases herrs : (b.validator req op).errors with
    | none =>
      rw [mainBranch_valid b req op oid args hg herrs]
      exact roleCalls_dispatchRoute_post b oid _ args _ rfl
    | some l =>
      have hsome : (b.validator req op).errors.isSome = true := by rw [herrs]; rfl
      rcases hvf : b.handlers.lookup "validationFail" with _ | hvh
      · rw [mainBranch_invalid_nofail b req op oid args hg hsome hvf]
        exact roleCalls_dispatchRoute_post b oid _ args _ rfl
      · rw [mainBranch_invalid_fail b req op oid args hvh hg hsome hvf]
        simp [roleCalls]

/-- The inner pipeline never emits a post-response call. -/
theorem handleInner_no_post (b : Backend) (req : Request) (args : List Json) :
    roleCalls (handleInner b req args).2 Role.postResponse = [] := by
  cases hm : b.router.matchOperation req with
  | none =>
    simp only [handleInner, hm]
    exact roleCalls_notFoundBranch_post b _ args
  | some op =>
    cases hoid : op.operationId with
    | none =>
      simp only [handleInner, hm, hoid]
      exact roleCalls_notFoundBranch_post b _ args
    | some oid =>
      by_cases hne : oid = ""
      · simp only [handleInner, hm, hoid, hne, if_true]
        exact roleCalls_notFoundBranch_post b _ args
      · rw [handleInner_matched b req args op oid hm hoid hne]
        exact roleCalls_mainBranch_post b req op oid args

/-- **C9 (confirmed).** With a `postResponseHandler` registered: on every
inner path that does not throw — business handler, not-found,
not-implemented and validation-fail alike — `handleRequest` stores the
inner response in `context.response`, invokes the post-response handler
exactly once (the inner trace never contains a post-response call), and
returns that handler's value in place of the inner response; on a
throwing path it is not invoked at all. -/
theorem postResponseHandler_wraps (b : Backend) (req : Request)
    (args : List Json) (p : Handler)
    (hp : b.handlers.lookup "postResponseHandler" = some p) :
    (∀ v c evs, handleInner b req args = (Except.ok (v, c), evs) →
      handleRequest b req args =
        (Except.ok (p (if b.withContext then some { c with response := some v } else none) args),
         evs ++ [Event.handlerCall Role.postResponse "postResponseHandler"
           (if b.withContext then some { c with response := some v } else none)]))
    ∧ (∀ msg evs, handleInner b req args = (Except.error msg, evs) →
        handleRequest b req args = (Except.error msg, evs))
    ∧ roleCalls (handleRequest b req args).2 Role.postResponse =
        (match (handleInner b req args).1 with
         | Except.ok _ => ["postResponseHandler"]
         | Except.error _ => []) := by
  refine ⟨?_, ?_, ?_⟩
  · intro v c evs hInner
    simp [handleRequest, hInner, hp, invokeHandler]
  · intro msg evs hInner
    simp [handleRequest, hInner]
  · rcases hInner : handleInner b req args with ⟨res, evs⟩
    have hnp : roleCalls evs Role.postResponse = [] := by
      have h0 := handleInner_no_post b req args
      rw [hInner] at h0
      exact h0
    cases res with
    | error msg => simpa [handleRequest, hInner] using hnp
    | ok vc =>
      rcases vc with ⟨v, c⟩
      simp only [handleRequest, hInner, hp, invokeHandler]
      simpa [roleCalls, List.filterMap_append] using hnp

/-- **C9 witness.** Concrete application of `postResponseHandler_wraps`:
the inner business response `1` is replaced by the post-response
handler's value `2`. -/
theorem postResponseHandler_wraps_witness :
    (handleRequest bC9 {} []).1 = Except.ok (Json.num 2) := by
  have h := (postResponseHandler_wraps bC9 {} [] hTwo rfl).1 (Json.num 1) ctxC9
    [Event.validateCall {}, Event.handlerCall Role.business "X" (some ctxC9)] rfl
  rw [h]
  rfl

/-! ### C10 -/

/-- Any event of a route-resolution trace is either from the accumulated
prefix or a handler call carrying the resolution context. -/
theorem events_dispatchRoute (b : Backend) (oid : String) (ctx : Ctx)
    (args : List Json) (evs : List Event) (e : Event)
    (he : e ∈ (dispatchRoute b oid ctx args evs).2) :
    e ∈ evs ∨ ∃ role key, e = Event.handlerCall role key
      (if b.withContext then some ctx else none) := by
  rcases h1 : b.handlers.lookup oid with _ | rh
  · rcases h2 : notImplementedLookup b.handlers with _ | ⟨k, f⟩
    · rw [(by simp [dispatchRoute, h1, h2] :
        (dispatchRoute b oid ctx args evs).2 = evs)] at he
      exact Or.inl he
    · simp only [dispatchRoute, h1, h2, invokeHandler] at he
      rcases List.mem_append.mp he with he | he
      · exact Or.inl he
      · rcases List.mem_singleton.mp he with rfl
        exact Or.inr ⟨_, _, rfl⟩
  · simp only [dispatchRoute, h1, invokeHandler] at he
    rcases List.mem_append.mp he with he | he
    · exact Or.inl he
    · rcases List.mem_singleton.mp he with rfl
      exact Or.inr ⟨_, _, rfl⟩

/-- When route resolution succeeds, the context it returns is the one it
was given. -/
theorem dispatchRoute_ok_ctx (b : Backend) (oid : String) (ctx : Ctx)
    (args : List Json) (evs : List Event) (v : Json) (c : Ctx)
    (h : (dispatchRoute b oid ctx args evs).1 = Except.ok (v, c)) : c = ctx := by
  rcases h1 : b.handlers.lookup oid with _ | rh
  · rcases h2 : notImplementedLookup b.handlers with _ | ⟨k, f⟩
    · simp [dispatchRoute, h1, h2] at h
    · simp only [dispatchRoute, h1, h2, invokeHandler] at h
      exact ((Prod.mk.injEq _ _ _ _).mp (Except.ok.inj h)).2.symm
  · simp only [dispatchRoute, h1, invokeHandler] at h
    exact ((Prod.mk.injEq _ _ _ _).mp (Except.ok.inj h)).2.symm

/-- Any event of a full `handleRequest` trace is either an inner event
or the single post-response call over the inner response. -/
theorem events_handleRequest (b : Backend) (req : Request) (args : List Json)
    (e : Event) (he : e ∈ (handleRequest b req args).2) :
    e ∈ (handleInner b req args).2
    ∨ ∃ v c, (handleInner b req args).1 = Except.ok (v, c)
        ∧ e = Event.handlerCall Role.postResponse "postResponseHandler"
            (if b.withContext then some { c with response := some v } else none) := by
  rcases hInner : handleInner b req args with ⟨res, evs⟩
  cases res with
  | error msg =>
    rw [handleRequest_of_inner_error b req args _ _ hInner] at he
    exact Or.inl (by simpa [hInner] using he)
  | ok vc =>
    rcases vc with ⟨v, c⟩
    rcases hp : b.handlers.lookup "postResponseHandler" with _ | p
    · have hH : handleRequest b req args = (Except.ok v, evs) := by
        simp [handleRequest, hInner, hp]
      rw [hH] at he
      exact Or.inl (by simpa [hInner] using he)
    · have hH : handleRequest b req args =
          (Except.ok (p (if b.withContext then some { c with response := some v } else none) args),
           evs ++ [Event.handlerCall Role.postResponse "postResponseHandler"
             (if b.withContext then some { c with response := some v } else none)]) := by
        simp [handleRequest, hInner, hp, invokeHandler]
      rw [hH] at he
      rcases List.mem_append.mp he with he | he
      · exact Or.inl (by simpa [hInner] using he)
      · rcases List.mem_singleton.mp he with rfl
        exact Or.inr ⟨v, c, by simp [hInner], rfl⟩

/-- **C10 (confirmed).** On a request whose matched operation makes the
validate gate evaluate to false: the request validator is never invoked,
every handler that runs receives a context whose `validation` field is
still `undefined`, and the whole run (routing, handler selection, trace
and result) is identical to the same backend with validation statically
disabled — the gate affects only the validation step. -/
theorem validate_gate_off (b : Backend) (req : Request) (args : List Json)
    (op : Operation) (oid : String)
    (hm : b.router.matchOperation req = some op) (hoid : op.operationId = some oid)
    (hne : oid ≠ "")
    (hgate : gateEval b.validate (gateCtx b req op) args = false) :
    (∀ vr, Event.validateCall vr ∉ (handleRequest b req args).2)
    ∧ (∀ e ∈ (handleRequest b req args).2, eventCtxValidationNone e)
    ∧ handleRequest b req args = handleRequest { b with validate := Gate.flag false } req args := by
  have hIn : handleInner b req args = dispatchRoute b oid (gateCtx b req op) args [] := by
    rw [handleInner_matched b req args op oid hm hoid hne,
      mainBranch_gate_false b req op oid args hgate]
  have hIn2 : handleInner { b with validate := Gate.flag false } req args =
      dispatchRoute b oid (gateCtx b req op) args [] := by
    rw [handleInner_matched { b with validate := Gate.flag false } req args op oid hm hoid hne,
      mainBranch_gate_false { b with validate := Gate.flag false } req op oid args rfl]
    rfl
  have heq : handleRequest b req args =
      handleRequest { b with validate := Gate.flag false } req args := by
    simp only [handleRequest, hIn, hIn2]
    rfl
  refine ⟨?_, ?_, heq⟩
  · intro vr hmem
    rcases events_handleRequest b req args _ hmem with hin | ⟨v, c, _, habs⟩
    · rw [hIn] at hin
      rcases events_dispatchRoute b oid _ args [] _ hin with h0 | ⟨role, key, habs⟩
      · simp at h0
      · exact Event.noConfusion habs
    · exact Event.noConfusion habs
  · intro e he
    rcases events_handleRequest b req args e he with hin | ⟨v, c, hok, rfl⟩
    · rw [hIn] at hin
      rcases events_dispatchRoute b oid _ args [] e hin with h0 | ⟨role, key, rfl⟩
      · simp at h0
      · cases hw : b.withContext with
        | true => simp [eventCtxValidationNone, hw, gateCtx]
        | false => simp [eventCtxValidationNone, hw]
    · have hc : c = gateCtx b req op := by
        rw [hIn] at hok
        exact dispatchRoute_ok_ctx b oid _ args [] v c hok
      subst hc
      cases hw : b.withContext with
      | true => simp [eventCtxValidationNone, hw, gateCtx]
      | false => simp [eventCtxValidationNone, hw]

/-- **C10 witness.** Concrete application of `validate_gate_off`: a
backend whose predicate gate rejects validation behaves identically to
the same backend with the static `false` flag. -/
theorem validate_gate_off_witness :
    handleRequest bC10 {} [] = handleRequest { bC10 with validate := Gate.flag false } {} [] :=
  (validate_gate_off bC10 {} [] opX "X" rfl rfl (by decide) rfl).2.2

end OpenAPIBackend
